import Mathlib

/-!
Verification development for the research-assistant backend
(`server.js` and its CORS-updated variant).

The server is an Express HTTP proxy in front of a chat-completion API.
This file embeds, per route, the validation, prompt construction,
outbound-call construction and response normalisation of the source,
together with the JavaScript string and JSON primitives those handlers
use (`String.prototype.trim`, the code-fence-stripping regex replace,
`JSON.parse`, object member lookup, `Array.prototype.map` with index).

Modelling boundaries, stated once here:
* JS strings are modelled as Lean `String` (sequences of characters;
  `substring`/`length` on surrogate pairs are not distinguished).
* Objects produced by `JSON.parse` are modelled as association lists of
  their own enumerable properties.  The property lookup performed by the
  form-population route (`jsMember`) models full JS member access on
  such values: own properties, including array and boxed-string index
  and `length` properties, and the string-keyed prototype members of
  `Object`, `Array`, `String`, `Number` and `Boolean` — all functions
  (or the `__proto__` accessor), hence defined for the
  `!== undefined` test but dropped from the JSON response by
  `res.json`.  Member lookup on `null`, which throws a `TypeError` in
  JS, is modelled explicitly where the handlers perform it.
* JSON numbers are modelled as integers; fractional and exponent forms
  are rejected by the model parser (no claim depends on them).
* The upstream HTTP exchange is modelled by an oracle
  `OutboundCall → UpstreamResult` passed to each handler; the handler
  records the calls it makes.  The `temperature` generation parameter
  (a float) is not carried in `OutboundCall`; `max_tokens` and
  `response_format` are.
-/

/-- The backtick character, written via its code point. -/
def backtick : Char := Char.ofNat 96

/-- The JavaScript whitespace class: the characters matched by `\s` in a
JS regular expression and stripped by `String.prototype.trim`. -/
def isJsWs (c : Char) : Bool :=
  c == ' ' || c == '\t' || c == '\n' || c == '\x0b' || c == '\x0c' || c == '\r' ||
  c == '\u00A0' || c == '\u1680' ||
  c == '\u2000' || c == '\u2001' || c == '\u2002' || c == '\u2003' ||
  c == '\u2004' || c == '\u2005' || c == '\u2006' || c == '\u2007' ||
  c == '\u2008' || c == '\u2009' || c == '\u200A' ||
  c == '\u2028' || c == '\u2029' || c == '\u202F' || c == '\u205F' ||
  c == '\u3000' || c == '\uFEFF'

/-- JS truthiness of a string: every string except the empty one. -/
def strTruthy (s : String) : Bool := !s.data.isEmpty

/-- The whitespace accepted between tokens by `JSON.parse`
(space, tab, line feed, carriage return). -/
def jsonWsChar (c : Char) : Bool :=
  c == ' ' || c == '\t' || c == '\n' || c == '\r'

/-- JSON values, as produced by `JSON.parse`.  Objects are association
lists of their own enumerable properties in insertion order; numbers are
modelled as integers (see the module docstring). -/
inductive Json where
  | null
  | bool (b : Bool)
  | num (n : Int)
  | str (s : String)
  | arr (items : List Json)
  | obj (fields : List (String × Json))

/-- JS truthiness of a JSON value (`null`, `false`, `0` and `""` are
falsy; arrays and objects are always truthy). -/
def Json.truthy : Json → Bool
  | .null => false
  | .bool b => b
  | .num n => n != 0
  | .str s => strTruthy s
  | .arr _ => true
  | .obj _ => true

/-- Own-property lookup in an object's field list (first match; the
parser keeps keys unique). -/
def getField? : List (String × Json) → String → Option Json
  | [], _ => none
  | (k0, v0) :: rest, k => if k0 = k then some v0 else getField? rest k

/-- JS property assignment `o[k] = v` on an object's field list: an
existing key keeps its position and gets the new value, a new key is
appended. -/
def setField : List (String × Json) → String → Json → List (String × Json)
  | [], k, v => [(k, v)]
  | (k0, v0) :: rest, k, v =>
    if k0 = k then (k0, v) :: rest else (k0, v0) :: setField rest k v

/-- Own-property lookup on a JSON object, `none` elsewhere.  This is
the accessor used to read fields of the literal objects the server
itself builds (the search fallback results); the form-population
route's lookup on a model-produced value is the full `jsMember`
defined further below. -/
def memberGet : Json → String → Option Json
  | .obj fields, k => getField? fields k
  | _, _ => none

mutual

/-- JS `String(v)` conversion, as applied by template literals.
Objects print as `[object Object]`; arrays join their elements. -/
def jsToString : Json → String
  | .null => "null"
  | .bool b => if b then "true" else "false"
  | .num n => toString n
  | .str s => s
  | .obj _ => "[object Object]"
  | .arr items => jsArrJoin items

/-- `Array.prototype.join(",")` as used by `Array.prototype.toString`:
`null` elements become the empty string. -/
def jsArrJoin : List Json → String
  | [] => ""
  | [Json.null] => ""
  | [j] => jsToString j
  | Json.null :: rest => "," ++ jsArrJoin rest
  | j :: rest => jsToString j ++ "," ++ jsArrJoin rest

end

/-- `s.substring(0, Math.min(s.length, n))`. -/
def jsTruncate (s : String) (n : Nat) : String := String.mk (s.data.take n)

/-! ### The code-fence-stripping regex and `trim`

Both JSON-consuming routes run
`rawContent.replace(/^```json\s*|```\s*$/g, '').trim()`.
The first alternative of the regex matches only at the start of the
string: the literal ```` ```json ```` followed by greedy whitespace.
The second alternative matches a literal ```` ``` ```` followed by
whitespace running to the end of the string (in JS, `$` without the `m`
flag matches only at the very end); scanning left to right, such a
match exists exactly when the whitespace-right-stripped string ends in
```` ``` ````, and it removes those three backticks together with the
whitespace after them.  `.trim()` then strips JS whitespace from both
ends. -/

/-- Remove a leading ```` ```json ```` fence and the whitespace after it
(the first regex alternative, anchored by `^`). -/
def stripLeadingJsonFence (cs : List Char) : List Char :=
  if ("```json".data).isPrefixOf cs then (cs.drop 7).dropWhile isJsWs else cs

/-- Remove a trailing ```` ``` ```` fence together with the whitespace
after it (the second regex alternative, anchored by `$`): strip trailing
whitespace and, when three backticks end the remainder, drop them. -/
def stripTrailingFence (cs : List Char) : List Char :=
  match cs.reverse.dropWhile isJsWs with
  | c1 :: c2 :: c3 :: rest =>
    if c1 = backtick ∧ c2 = backtick ∧ c3 = backtick then rest.reverse
    else (c1 :: c2 :: c3 :: rest).reverse
  | t => t.reverse

/-- The regex replace followed by `.trim()`, on character lists. -/
def cleanList (cs : List Char) : List Char :=
  let b := stripTrailingFence (stripLeadingJsonFence cs)
  ((b.dropWhile isJsWs).reverse.dropWhile isJsWs).reverse

/-- `rawContent.replace(/^```json\s*|```\s*$/g, '').trim()`. -/
def cleanContent (s : String) : String := String.mk (cleanList s.data)

/-! ### A model of `JSON.parse` -/

/-- Numeric value of a hexadecimal digit. -/
def hexVal? (c : Char) : Option Nat :=
  if c.isDigit then some (c.toNat - 48)
  else if 'a' ≤ c ∧ c ≤ 'f' then some (c.toNat - 87)
  else if 'A' ≤ c ∧ c ≤ 'F' then some (c.toNat - 55)
  else none

/-- Decimal value of a digit string. -/
def digitsToNat (cs : List Char) : Nat :=
  cs.foldl (fun a c => a * 10 + (c.toNat - 48)) 0

/-- Parse the body of a JSON string literal after the opening quote,
handling the escape sequences of the JSON grammar.  `\u` escapes whose
code is not a Unicode scalar value are rejected (JS would keep a lone
surrogate; no claim depends on one). -/
def parseStringBody : Nat → List Char → List Char → Option (String × List Char)
  | 0, _, _ => none
  | _ + 1, [], _ => none
  | fuel + 1, c :: rest, acc =>
    if c = '"' then some (String.mk acc.reverse, rest)
    else if c = '\\' then
      match rest with
      | [] => none
      | e :: rest2 =>
        if e = '"' then parseStringBody fuel rest2 ('"' :: acc)
        else if e = '\\' then parseStringBody fuel rest2 ('\\' :: acc)
        else if e = '/' then parseStringBody fuel rest2 ('/' :: acc)
        else if e = 'b' then parseStringBody fuel rest2 ('\x08' :: acc)
        else if e = 'f' then parseStringBody fuel rest2 ('\x0c' :: acc)
        else if e = 'n' then parseStringBody fuel rest2 ('\n' :: acc)
        else if e = 'r' then parseStringBody fuel rest2 ('\r' :: acc)
        else if e = 't' then parseStringBody fuel rest2 ('\t' :: acc)
        else if e = 'u' then
          match rest2 with
          | h1 :: h2 :: h3 :: h4 :: rest3 =>
            match hexVal? h1, hexVal? h2, hexVal? h3, hexVal? h4 with
            | some a, some b, some c2, some d =>
              let n := ((a * 16 + b) * 16 + c2) * 16 + d
              if n < 0xd800 ∨ 0xdfff < n then
                parseStringBody fuel rest3 (Char.ofNat n :: acc)
              else none
            | _, _, _, _ => none
          | _ => none
        else none
    else if c.toNat < 32 then none
    else parseStringBody fuel rest (c :: acc)

/-- Parse a JSON number token (integers only, see the module
docstring): optional minus sign, digits without a superfluous leading
zero, and no fractional or exponent part. -/
def parseNumToken (cs : List Char) : Option (Json × List Char) :=
  let signed : Bool × List Char :=
    match cs with
    | c :: rest => if c = '-' then (true, rest) else (false, cs)
    | [] => (false, cs)
  let digs := signed.2.takeWhile Char.isDigit
  let rest := signed.2.dropWhile Char.isDigit
  if digs.isEmpty then none
  else if digs.length > 1 ∧ digs.headD '0' = '0' then none
  else
    match rest with
    | c :: _ =>
      if c = '.' ∨ c = 'e' ∨ c = 'E' then none
      else
        some (Json.num (if signed.1 then -(Int.ofNat (digitsToNat digs))
                        else Int.ofNat (digitsToNat digs)), rest)
    | [] =>
      some (Json.num (if signed.1 then -(Int.ofNat (digitsToNat digs))
                      else Int.ofNat (digitsToNat digs)), rest)

mutual

/-- Parse one JSON value (fuel-based recursion; the top-level entry point
supplies ample fuel). -/
def parseValue : Nat → List Char → Option (Json × List Char)
  | 0, _ => none
  | fuel + 1, cs =>
    match cs.dropWhile jsonWsChar with
    | [] => none
    | c :: rest =>
      if c = 'n' then
        match rest with
        | 'u' :: 'l' :: 'l' :: r => some (Json.null, r)
        | _ => none
      else if c = 't' then
        match rest with
        | 'r' :: 'u' :: 'e' :: r => some (Json.bool true, r)
        | _ => none
      else if c = 'f' then
        match rest with
        | 'a' :: 'l' :: 's' :: 'e' :: r => some (Json.bool false, r)
        | _ => none
      else if c = '"' then
        match parseStringBody fuel rest [] with
        | some (s, r) => some (Json.str s, r)
        | none => none
      else if c = '[' then
        match rest.dropWhile jsonWsChar with
        | ']' :: r => some (Json.arr [], r)
        | _ => parseArrayItems fuel rest []
      else if c = '{' then
        match rest.dropWhile jsonWsChar with
        | '}' :: r => some (Json.obj [], r)
        | _ => parseObjItems fuel rest []
      else parseNumToken (c :: rest)

/-- Parse the comma-separated items of a non-empty JSON array. -/
def parseArrayItems : Nat → List Char → List Json → Option (Json × List Char)
  | 0, _, _ => none
  | fuel + 1, cs, acc =>
    match parseValue fuel cs with
    | none => none
    | some (v, r) =>
      match r.dropWhile jsonWsChar with
      | ',' :: r2 => parseArrayItems fuel r2 (v :: acc)
      | ']' :: r2 => some (Json.arr (v :: acc).reverse, r2)
      | _ => none

/-- Parse the members of a non-empty JSON object.  A duplicated key
overwrites the earlier value in place, as in `JSON.parse`. -/
def parseObjItems : Nat → List Char → List (String × Json) → Option (Json × List Char)
  | 0, _, _ => none
  | fuel + 1, cs, acc =>
    match cs.dropWhile jsonWsChar with
    | '"' :: r =>
      match parseStringBody fuel r [] with
      | none => none
      | some (k, r2) =>
        match r2.dropWhile jsonWsChar with
        | ':' :: r3 =>
          match parseValue fuel r3 with
          | none => none
          | some (v, r4) =>
            match r4.dropWhile jsonWsChar with
            | ',' :: r5 => parseObjItems fuel r5 (setField acc k v)
            | '}' :: r5 => some (Json.obj (setField acc k v), r5)
            | _ => none
        | _ => none
    | _ => none

end

/-- The model of `JSON.parse`: one value, optionally surrounded by
whitespace, spanning the whole string. -/
def Json.parse (s : String) : Option Json :=
  match parseValue (s.data.length * 2 + 2) s.data with
  | some (v, r) => if (r.dropWhile jsonWsChar).isEmpty then some v else none
  | none => none

/-! ### The HTTP model shared by both source files -/

/-- A chat message sent upstream, built by `{ role: ..., content: ... }`
or passed through from the caller. -/
def roleContent (role content : String) : Json :=
  Json.obj [("role", Json.str role), ("content", Json.str content)]

/-- One outbound request to the completion API.  Fields, in order: the
URL, the bearer credential, the `model` field, the `messages` array, the
`max_tokens` parameter and whether `response_format: {type: "json_object"}`
was requested (the float `temperature` is not carried, see the module
docstring). -/
structure OutboundCall where
  url : String
  apiKey : String
  model : String
  messages : List Json
  maxTokens : Nat
  responseFormatJsonObject : Bool

/-- What the upstream exchange produced, as the handlers observe it:
a thrown network error, a non-ok HTTP response (status, `statusText`,
optional `message` of the error body), or an ok response carrying the
`choices[0].message.content` string when the whole chain
`data && data.choices && data.choices.length > 0 && data.choices[0].message`
is truthy (otherwise `none`; a present-but-empty content string is kept
as `some ""` since the handlers test its truthiness themselves). -/
inductive UpstreamResult where
  | netError (msg : String)
  | httpError (status : Nat) (statusText : String) (message : Option String)
  | ok (content : Option String)

/-- An HTTP response sent to the caller: status code and JSON body
(`res.send` of text is modelled as a string body). -/
structure HttpResponse where
  status : Nat
  body : Json

/-- The observable outcome of one request: the response and the list of
outbound completion-API calls made while handling it. -/
structure RouteResult where
  response : HttpResponse
  calls : List OutboundCall

/-- The process environment as the handlers read it at request time:
the `OPENROUTER_API_KEY` variable and the current year
(`new Date().getFullYear()`), which the search fallbacks interpolate. -/
structure Env where
  apiKey : Option String
  year : Nat

/-- `errorData.message || 'Unknown error from OpenRouter'`. -/
def jsOrDefault (m : Option String) (d : String) : String :=
  match m with
  | some s => if strTruthy s then s else d
  | none => d

/-- Request body of `POST /api/search`. -/
structure SearchRequest where
  query : Option String

/-- Request body of `POST /api/extract`. -/
structure ExtractRequest where
  textToExtract : Option String

/-- Request body of `POST /api/insight`. -/
structure InsightRequest where
  textForInsight : Option String

/-- Request body of `POST /api/populate_form`.  `questions` is kept as a
raw JSON value because the handler itself checks `Array.isArray`. -/
structure PopulateRequest where
  sourceText : Option String
  questions : Option Json

/-- Request body of `POST /api/chat`.  `messages` is kept as a raw JSON
value because the handler itself checks `Array.isArray`. -/
structure ChatRequest where
  messages : Option Json

/-- The body of every `checkApiKey` failure:
`{ error: 'Server configuration error: API Key missing.' }` with
status 500. -/
def apiKeyMissingBody : Json :=
  Json.obj [("error", Json.str "Server configuration error: API Key missing.")]

/-- `Array.prototype.map((item, index) => ...)` with an explicit running
index. -/
def jsMapIndexed (f : Json → Nat → Json) : List Json → Nat → List Json
  | [], _ => []
  | x :: xs, i => f x i :: jsMapIndexed f xs (i + 1)

/-! ### JS member access as the form-population route performs it

`populatedFields[q]` runs full JS property lookup on whatever value
`JSON.parse` produced: own properties first (for arrays and boxed
strings these include the index properties and `length`), then the
prototype chain.  The prototype members reachable from JSON-parsed
values are functions, plus the `__proto__` accessor: they are defined,
so the `!== undefined` test keeps them, but they cannot appear in the
JSON response — `JSON.stringify` (inside `res.json`) drops
function-valued properties, and an assignment to the key `__proto__`
invokes the inherited setter and creates no own property at all.
`JsProp` distinguishes the three observable outcomes of a lookup. -/

/-- Outcome of a JS property lookup on a JSON-parsed value: undefined,
a JSON-representable value, or defined but not JSON-representable in
the response (a prototype function, or the `__proto__` accessor). -/
inductive JsProp where
  | undefined
  | val (j : Json)
  | nonJson

/-- The string-keyed properties of `Object.prototype`. -/
def objectPrototypeProps : List String :=
  ["constructor", "hasOwnProperty", "isPrototypeOf", "propertyIsEnumerable",
   "toLocaleString", "toString", "valueOf", "__proto__",
   "__defineGetter__", "__defineSetter__", "__lookupGetter__", "__lookupSetter__"]

/-- The string-keyed properties of `Array.prototype` (ECMAScript 2023). -/
def arrayPrototypeProps : List String :=
  ["at", "concat", "constructor", "copyWithin", "entries", "every", "fill",
   "filter", "find", "findIndex", "findLast", "findLastIndex", "flat",
   "flatMap", "forEach", "includes", "indexOf", "join", "keys",
   "lastIndexOf", "length", "map", "pop", "push", "reduce", "reduceRight",
   "reverse", "shift", "slice", "some", "sort", "splice", "toLocaleString",
   "toReversed", "toSorted", "toSpliced", "toString", "unshift", "values",
   "with"]

/-- The string-keyed properties of `String.prototype` (ECMAScript 2023). -/
def stringPrototypeProps : List String :=
  ["anchor", "at", "big", "blink", "bold", "charAt", "charCodeAt",
   "codePointAt", "concat", "constructor", "endsWith", "fixed",
   "fontcolor", "fontsize", "includes", "indexOf", "isWellFormed",
   "italics", "lastIndexOf", "length", "link", "localeCompare", "match",
   "matchAll", "normalize", "padEnd", "padStart", "repeat", "replace",
   "replaceAll", "search", "slice", "small", "split", "startsWith",
   "strike", "sub", "substr", "substring", "sup", "toLocaleLowerCase",
   "toLocaleUpperCase", "toLowerCase", "toString", "toUpperCase",
   "toWellFormed", "trim", "trimEnd", "trimLeft", "trimRight",
   "trimStart", "valueOf"]

/-- The string-keyed properties of `Number.prototype`. -/
def numberPrototypeProps : List String :=
  ["constructor", "toExponential", "toFixed", "toLocaleString",
   "toPrecision", "toString", "valueOf"]

/-- The string-keyed properties of `Boolean.prototype`. -/
def booleanPrototypeProps : List String :=
  ["constructor", "toString", "valueOf"]

/-- A canonical array-index string: `"0"`, or digits without a leading
zero — the only keys that address elements of a JSON-parsed array, and
the index properties of a boxed string. -/
def canonicalIndex? (s : String) : Option Nat :=
  match s.data with
  | ['0'] => some 0
  | c :: cs =>
    if c.isDigit ∧ c ≠ '0' ∧ cs.all Char.isDigit then some (digitsToNat (c :: cs))
    else none
  | [] => none

/-- Full JS property lookup `parsed[key]` on a value produced by
`JSON.parse`: own properties (object fields; array elements and
`length`; boxed-string characters and `length`), then the prototype
chain.  Lookup on `null` throws in JS; the route models that throw
before any lookup, so the `null` case here is unreachable from
`populateShape`. -/
def jsMember (parsed : Json) (key : String) : JsProp :=
  match parsed with
  | .obj fields =>
    match getField? fields key with
    | some v => .val v
    | none => if objectPrototypeProps.contains key then .nonJson else .undefined
  | .arr items =>
    if key = "length" then .val (Json.num (Int.ofNat items.length))
    else
      match canonicalIndex? key with
      | some i =>
        match items.get? i with
        | some e => .val e
        | none => .undefined
      | none =>
        if arrayPrototypeProps.contains key || objectPrototypeProps.contains key then .nonJson
        else .undefined
  | .str s =>
    if key = "length" then .val (Json.num (Int.ofNat s.data.length))
    else
      match canonicalIndex? key with
      | some i =>
        match s.data.get? i with
        | some c => .val (Json.str (String.mk [c]))
        | none => .undefined
      | none =>
        if stringPrototypeProps.contains key || objectPrototypeProps.contains key then .nonJson
        else .undefined
  | .num _ =>
    if numberPrototypeProps.contains key || objectPrototypeProps.contains key then .nonJson
    else .undefined
  | .bool _ =>
    if booleanPrototypeProps.contains key || objectPrototypeProps.contains key then .nonJson
    else .undefined
  | .null => .undefined

/-- The assigned value of one loop iteration:
`populatedFields[q] !== undefined ? populatedFields[q] : ''`. -/
def jsAssignValue (r : JsProp) : JsProp :=
  match r with
  | .undefined => .val (Json.str "")
  | r => r

/-- JS property assignment on a `JsProp`-valued field list (same
semantics as `setField`). -/
def setFieldP : List (String × JsProp) → String → JsProp → List (String × JsProp)
  | [], k, v => [(k, v)]
  | (k0, v0) :: rest, k, v =>
    if k0 = k then (k0, v) :: rest else (k0, v0) :: setFieldP rest k v

/-- What `res.json` keeps of such an object: own properties whose value
is JSON-representable, in order; function-valued entries are dropped by
`JSON.stringify`. -/
def serializeFields : List (String × JsProp) → List (String × Json)
  | [] => []
  | (k, JsProp.val j) :: rest => (k, j) :: serializeFields rest
  | (_, _) :: rest => serializeFields rest

namespace ServerJs

/-- `const OPENROUTER_API_URL = 'https://openrouter.ai/api/v1/chat/completions'`. -/
def OPENROUTER_API_URL : String := "https://openrouter.ai/api/v1/chat/completions"

/-- `const MODEL_TO_USE = 'openai/gpt-3.5-turbo'`. -/
def MODEL_TO_USE : String := "openai/gpt-3.5-turbo"

/-- `checkApiKey`: reads `process.env.OPENROUTER_API_KEY` at call time;
a missing or empty value sends the 500 configuration error (modelled by
`none`), otherwise the key is returned for the outbound call. -/
def checkApiKey (env : Env) : Option String :=
  match env.apiKey with
  | some k => if strTruthy k then some k else none
  | none => none

/-- What `app.listen` does at startup: the process always begins
listening; the credential is only read to log whether it is present. -/
structure StartupState where
  listening : Bool
  keyLoaded : Bool

/-- Startup behaviour of `server.js`: listen unconditionally and log
credential presence. -/
def startup (env : Env) : StartupState :=
  { listening := true
    keyLoaded := match env.apiKey with
                 | some k => strTruthy k
                 | none => false }

/-- `app.use(cors())` in `server.js`: the default configuration reflects
every origin (`Access-Control-Allow-Origin: *`); no request is rejected
by the CORS layer. -/
def corsOriginAllowed (origin : Option String) : Bool :=
  match origin with
  | none => true
  | some _ => true

/-- The default `cors()` configuration does not set
`Access-Control-Allow-Credentials`. -/
def corsCredentials : Bool := false

/-- System prompt of `POST /api/search`. -/
def searchSystemPrompt : String :=
  "You are an AI research assistant. When asked a query, provide 2-3 concise, fictional search result-like summaries. Each summary should include a \"title\", \"source\" (e.g., Journal, Institute, Blog, Year), and a brief \"snippet\" (2-3 sentences). Present this data as a JSON array of objects. DO NOT include any conversational text outside the JSON."

/-- The `(item, index) => ({ ...item, id: item.id || index + 1 })`
callback of the search route: spread the item and set `id` to the
existing value when truthy, else to `index + 1`.  Spreading a non-object
contributes no modelled fields. -/
def assignId (item : Json) (index : Nat) : Json :=
  match item with
  | .obj fields =>
    match getField? fields "id" with
    | some v =>
      if v.truthy then Json.obj (setField fields "id" v)
      else Json.obj (setField fields "id" (Json.num (Int.ofNat (index + 1))))
    | none => Json.obj (setField fields "id" (Json.num (Int.ofNat (index + 1))))
  | _ => Json.obj [("id", Json.num (Int.ofNat (index + 1)))]

/-- The fallback result built when the model's search reply cannot be
parsed (or, being a parsed non-array, makes `.map` throw). -/
def searchParseFallback (query raw : String) (year : Nat) : Json :=
  Json.obj
    [("id", Json.num 1),
     ("title", Json.str ("AI Could Not Parse Results for \"" ++ query ++ "\" (Backend Error)")),
     ("source", Json.str ("OpenRouter API Parsing Issue, " ++ toString year)),
     ("snippet", Json.str ("The AI responded, but its output could not be formatted as expected by the backend. Raw response (truncated): " ++ jsTruncate raw 200 ++ "..."))]

/-- The fallback result built when the model supplied no content at all
for the search route. -/
def searchNoContentFallback (query : String) (year : Nat) : Json :=
  Json.obj
    [("id", Json.num 1),
     ("title", Json.str ("No Relevant AI Response for \"" ++ query ++ "\" (Backend Search)")),
     ("source", Json.str ("OpenRouter API, " ++ toString year)),
     ("snippet", Json.str "The AI did not provide any content for your search query via the backend.")]

/-- Lines 74-106 of the search route: the truthiness test on the reply
content, fence stripping, `JSON.parse`, the id-assigning `.map` (whose
`TypeError` on a parsed non-array lands in the same `catch` as a parse
error), and both fallbacks. -/
def searchResults (content : Option String) (query : String) (year : Nat) : List Json :=
  match content with
  | some raw =>
    if strTruthy raw then
      match Json.parse (cleanContent raw) with
      | some (.arr items) => jsMapIndexed assignId items 0
      | some _ => [searchParseFallback query raw year]
      | none => [searchParseFallback query raw year]
    else [searchNoContentFallback query year]
  | none => [searchNoContentFallback query year]

/-- The `POST /api/search` handler. -/
def searchHandler (env : Env) (upstream : OutboundCall → UpstreamResult)
    (req : SearchRequest) : RouteResult :=
  match req.query with
  | none => ⟨⟨400, Json.obj [("error", Json.str "Search query is required.")]⟩, []⟩
  | some query =>
    if strTruthy query then
      match checkApiKey env with
      | none => ⟨⟨500, apiKeyMissingBody⟩, []⟩
      | some key =>
        let call : OutboundCall :=
          ⟨OPENROUTER_API_URL, key, MODEL_TO_USE,
           [roleContent "system" searchSystemPrompt, roleContent "user" query],
           500, false⟩
        match upstream call with
        | .netError m =>
          ⟨⟨500, Json.obj [("error", Json.str "Failed to fetch search results from OpenRouter."),
                           ("details", Json.str m)]⟩, [call]⟩
        | .httpError st stTxt m =>
          ⟨⟨st, Json.obj [("error", Json.str ("OpenRouter API error: " ++ stTxt)),
                          ("details", Json.str (jsOrDefault m "Unknown error from OpenRouter"))]⟩,
           [call]⟩
        | .ok content =>
          ⟨⟨200, Json.obj [("results", Json.arr (searchResults content query env.year))]⟩, [call]⟩
    else ⟨⟨400, Json.obj [("error", Json.str "Search query is required.")]⟩, []⟩

/-- System prompt of `POST /api/extract`. -/
def extractSystemPrompt : String :=
  "You are an AI assistant specialized in extracting key information and structuring it into a concise outline. Format the outline using bullet points and sub-bullet points. Do NOT include any conversational text, only the outline."

/-- The `POST /api/extract` handler. -/
def extractHandler (env : Env) (upstream : OutboundCall → UpstreamResult)
    (req : ExtractRequest) : RouteResult :=
  match req.textToExtract with
  | none => ⟨⟨400, Json.obj [("error", Json.str "Text to extract is required.")]⟩, []⟩
  | some text =>
    if strTruthy text then
      match checkApiKey env with
      | none => ⟨⟨500, apiKeyMissingBody⟩, []⟩
      | some key =>
        let call : OutboundCall :=
          ⟨OPENROUTER_API_URL, key, MODEL_TO_USE,
           [roleContent "system" extractSystemPrompt,
            roleContent "user" ("Create a concise outline from the following text:\n\n" ++ text)],
           300, false⟩
        match upstream call with
        | .netError m =>
          ⟨⟨500, Json.obj [("error", Json.str "Failed to generate outline from OpenRouter."),
                           ("details", Json.str m)]⟩, [call]⟩
        | .httpError st stTxt m =>
          ⟨⟨st, Json.obj [("error", Json.str ("OpenRouter API error during extraction: " ++ stTxt)),
                          ("details", Json.str (jsOrDefault m "Unknown error from OpenRouter"))]⟩,
           [call]⟩
        | .ok content =>
          match content with
          | some c =>
            if strTruthy c then ⟨⟨200, Json.obj [("outline", Json.str c)]⟩, [call]⟩
            else ⟨⟨500, Json.obj [("error", Json.str "AI did not provide outline content.")]⟩, [call]⟩
          | none => ⟨⟨500, Json.obj [("error", Json.str "AI did not provide outline content.")]⟩, [call]⟩
    else ⟨⟨400, Json.obj [("error", Json.str "Text to extract is required.")]⟩, []⟩

/-- System prompt of `POST /api/insight`. -/
def insightSystemPrompt : String :=
  "You are an AI research assistant. Given a piece of text, identify the most significant, non-obvious, and actionable insight. Frame it as a concise, thought-provoking statement or a short paragraph. Do NOT include any conversational text outside of the insight itself."

/-- The `POST /api/insight` handler. -/
def insightHandler (env : Env) (upstream : OutboundCall → UpstreamResult)
    (req : InsightRequest) : RouteResult :=
  match req.textForInsight with
  | none => ⟨⟨400, Json.obj [("error", Json.str "Text for insight is required.")]⟩, []⟩
  | some text =>
    if strTruthy text then
      match checkApiKey env with
      | none => ⟨⟨500, apiKeyMissingBody⟩, []⟩
      | some key =>
        let call : OutboundCall :=
          ⟨OPENROUTER_API_URL, key, MODEL_TO_USE,
           [roleContent "system" insightSystemPrompt,
            roleContent "user" ("Generate a key insight from the following text:\n\n" ++ text)],
           150, false⟩
        match upstream call with
        | .netError m =>
          ⟨⟨500, Json.obj [("error", Json.str "Failed to generate insight from OpenRouter."),
                           ("details", Json.str m)]⟩, [call]⟩
        | .httpError st stTxt m =>
          ⟨⟨st, Json.obj [("error", Json.str ("OpenRouter API error during insight generation: " ++ stTxt)),
                          ("details", Json.str (jsOrDefault m "Unknown error from OpenRouter"))]⟩,
           [call]⟩
        | .ok content =>
          match content with
          | some c =>
            if strTruthy c then ⟨⟨200, Json.obj [("insight", Json.str c)]⟩, [call]⟩
            else ⟨⟨500, Json.obj [("error", Json.str "AI did not provide insight content.")]⟩, [call]⟩
          | none => ⟨⟨500, Json.obj [("error", Json.str "AI did not provide insight content.")]⟩, [call]⟩
    else ⟨⟨400, Json.obj [("error", Json.str "Text for insight is required.")]⟩, []⟩

/-- System prompt of `POST /api/populate_form`. -/
def populateSystemPrompt : String :=
  "You are an expert data extractor. Your task is to precisely answer given questions based ONLY on the provided source text. Respond strictly in the specified JSON format. If information for a question is not found, use an empty string as the value."

/-- The user-message template literal of the form-population route,
including its source indentation, the interpolated source text and the
`- `-prefixed question lines. -/
def buildPopulatePrompt (sourceText : String) (questions : List Json) : String :=
  "Based on the following source text, answer each of the following questions concisely. Provide only the answer for each question, or leave it blank if the information is not directly present. Format your complete response as a JSON object where keys are the exact questions and values are the extracted answers. Ensure the JSON is valid and contains no extra text.\n\n    Source Text:\n    ---\n    "
  ++ sourceText ++
  "\n    ---\n\n    Questions to Answer:\n    "
  ++ String.intercalate "\n" (questions.map (fun q => "- " ++ jsToString q)) ++
  "\n\n    Example JSON structure:\n    \x7b\n      \"Question 1\": \"Answer to Q1\",\n      \"Question 2\": \"Answer to Q2\",\n      \"Question 3\": \"\"\n    \x7d\n    "

/-- The 500 error message of the form-population `catch` branch. -/
def populateParseFailMsg (raw : String) : String :=
  "AI response parsing failed. Raw AI output (truncated): " ++ jsTruncate raw 200 ++ "..."

/-- One iteration of the `questions.forEach` loop:
`finalPopulatedFields[q] = populatedFields[q] !== undefined ? populatedFields[q] : ''`.
The lookup is full JS property access (`jsMember`); an assignment to
the key `__proto__` hits the inherited setter and creates no own
property. -/
def populateAssign (parsed : Json) (acc : List (String × JsProp)) (q : Json) :
    List (String × JsProp) :=
  let k := jsToString q
  if k = "__proto__" then acc
  else setFieldP acc k (jsAssignValue (jsMember parsed k))

/-- The `questions.forEach` loop: fill `finalPopulatedFields[q]` with
the looked-up answer when defined, else the empty string. -/
def populateFill (questions : List Json) (parsed : Json) : List (String × JsProp) :=
  questions.foldl (populateAssign parsed) []

/-- Lines 308-324 of the form-population route together with the
`res.json` serialisation of the resulting object: fence stripping,
`JSON.parse`, the `questions.forEach` fill, and the drop of
non-JSON-representable (function-valued) properties by
`JSON.stringify`.  A parse failure lands in the `catch` with the
truncated-output message; so does the `TypeError` thrown by
`populatedFields[q]` when the reply parsed to `null` and at least one
question is looked up. -/
def populateShape (questions : List Json) (raw : String) : Except String (List (String × Json)) :=
  match Json.parse (cleanContent raw) with
  | none => .error (populateParseFailMsg raw)
  | some .null =>
    if questions.isEmpty then .ok [] else .error (populateParseFailMsg raw)
  | some parsed => .ok (serializeFields (populateFill questions parsed))

/-- The `POST /api/populate_form` handler. -/
def populateHandler (env : Env) (upstream : OutboundCall → UpstreamResult)
    (req : PopulateRequest) : RouteResult :=
  match req.sourceText, req.questions with
  | some sourceText, some (.arr (q0 :: qs)) =>
    if strTruthy sourceText then
      match checkApiKey env with
      | none => ⟨⟨500, apiKeyMissingBody⟩, []⟩
      | some key =>
        let call : OutboundCall :=
          ⟨OPENROUTER_API_URL, key, MODEL_TO_USE,
           [roleContent "system" populateSystemPrompt,
            roleContent "user" (buildPopulatePrompt sourceText (q0 :: qs))],
           1000, true⟩
        match upstream call with
        | .netError m =>
          ⟨⟨500, Json.obj [("error", Json.str "Failed to populate form from OpenRouter."),
                           ("details", Json.str m)]⟩, [call]⟩
        | .httpError st stTxt m =>
          ⟨⟨st, Json.obj [("error", Json.str ("OpenRouter API error during form population: " ++ stTxt)),
                          ("details", Json.str (jsOrDefault m "Unknown error from OpenRouter"))]⟩,
           [call]⟩
        | .ok content =>
          match content with
          | some raw =>
            if strTruthy raw then
              match populateShape (q0 :: qs) raw with
              | .ok fields => ⟨⟨200, Json.obj [("populated_fields", Json.obj fields)]⟩, [call]⟩
              | .error msg => ⟨⟨500, Json.obj [("error", Json.str msg)]⟩, [call]⟩
            else ⟨⟨500, Json.obj [("error", Json.str "AI did not provide content for form population.")]⟩, [call]⟩
          | none => ⟨⟨500, Json.obj [("error", Json.str "AI did not provide content for form population.")]⟩, [call]⟩
    else ⟨⟨400, Json.obj [("error", Json.str "Source text and a list of questions are required.")]⟩, []⟩
  | _, _ => ⟨⟨400, Json.obj [("error", Json.str "Source text and a list of questions are required.")]⟩, []⟩

/-- The fixed system turn the chat route prepends to the caller's
conversation history. -/
def chatSystemMessage : Json :=
  roleContent "system" "You are a helpful and knowledgeable AI research assistant. Provide concise, accurate, and relevant information. If asked about something beyond your knowledge, admit it gracefully. Keep responses helpful and on topic."

/-- The `POST /api/chat` handler. -/
def chatHandler (env : Env) (upstream : OutboundCall → UpstreamResult)
    (req : ChatRequest) : RouteResult :=
  match req.messages with
  | some (.arr (m0 :: ms)) =>
    match checkApiKey env with
    | none => ⟨⟨500, apiKeyMissingBody⟩, []⟩
    | some key =>
      let call : OutboundCall :=
        ⟨OPENROUTER_API_URL, key, MODEL_TO_USE,
         chatSystemMessage :: m0 :: ms,
         500, false⟩
      match upstream call with
      | .netError m =>
        ⟨⟨500, Json.obj [("error", Json.str "Failed to get chat response from OpenRouter."),
                         ("details", Json.str m)]⟩, [call]⟩
      | .httpError st stTxt m =>
        ⟨⟨st, Json.obj [("error", Json.str ("OpenRouter API error during chat: " ++ stTxt)),
                        ("details", Json.str (jsOrDefault m "Unknown error from OpenRouter"))]⟩,
         [call]⟩
      | .ok content =>
        match content with
        | some c =>
          if strTruthy c then ⟨⟨200, Json.obj [("reply", Json.str c)]⟩, [call]⟩
          else ⟨⟨500, Json.obj [("error", Json.str "AI did not provide content for chat response.")]⟩, [call]⟩
        | none => ⟨⟨500, Json.obj [("error", Json.str "AI did not provide content for chat response.")]⟩, [call]⟩
  | _ => ⟨⟨400, Json.obj [("error", Json.str "Messages array is required for chat.")]⟩, []⟩

/-- `GET /` sends a fixed liveness text. -/
def rootResponse : HttpResponse :=
  ⟨200, Json.str "Research Assistant Backend is running!"⟩

end ServerJs


/-!
### The second source file

The repository carries a second copy of `server.js` (under an unknown
file name) whose only change is the explicit CORS configuration at the
top; the banner comment in that file says the rest of the code is the
same.  Its definitions are transcribed separately below so that the
route-for-route equivalence is a theorem about two independent
embeddings.
-/

namespace Part000

/-- `const OPENROUTER_API_URL = 'https://openrouter.ai/api/v1/chat/completions'`. -/
def OPENROUTER_API_URL : String := "https://openrouter.ai/api/v1/chat/completions"

/-- `const MODEL_TO_USE = 'openai/gpt-3.5-turbo'`. -/
def MODEL_TO_USE : String := "openai/gpt-3.5-turbo"

/-- `checkApiKey`: reads `process.env.OPENROUTER_API_KEY` at call time;
a missing or empty value sends the 500 configuration error (modelled by
`none`), otherwise the key is returned for the outbound call. -/
def checkApiKey (env : Env) : Option String :=
  match env.apiKey with
  | some k => if strTruthy k then some k else none
  | none => none

/-- What `app.listen` does at startup: the process always begins
listening; the credential is only read to log whether it is present. -/
structure StartupState where
  listening : Bool
  keyLoaded : Bool

/-- Startup behaviour of the updated file: listen unconditionally and
log credential presence. -/
def startup (env : Env) : StartupState :=
  { listening := true
    keyLoaded := match env.apiKey with
                 | some k => strTruthy k
                 | none => false }

/-- The `allowedOrigins` list of the updated CORS configuration. -/
def allowedOrigins : List String :=
  ["http://localhost:3000",
   "https://research-assistant-tims-projects-d59677e7.vercel.app"]

/-- The `origin` callback of the updated CORS configuration:
`if (!origin || allowedOrigins.includes(origin)) callback(null, true)
else callback(new Error('Not allowed by CORS'), false)`.  Requests
without an Origin header (or with a falsy one) are allowed through. -/
def corsOriginAllowed (origin : Option String) : Bool :=
  match origin with
  | none => true
  | some o => !strTruthy o || allowedOrigins.contains o

/-- `credentials: true` in the updated CORS configuration. -/
def corsCredentials : Bool := true

/-- `methods: ['GET', 'POST', 'PUT', 'DELETE', 'OPTIONS']`. -/
def corsMethods : List String := ["GET", "POST", "PUT", "DELETE", "OPTIONS"]

/-- `allowedHeaders: ['Content-Type', 'Authorization']`. -/
def corsAllowedHeaders : List String := ["Content-Type", "Authorization"]

/-- System prompt of `POST /api/search`. -/
def searchSystemPrompt : String :=
  "You are an AI research assistant. When asked a query, provide 2-3 concise, fictional search result-like summaries. Each summary should include a \"title\", \"source\" (e.g., Journal, Institute, Blog, Year), and a brief \"snippet\" (2-3 sentences). Present this data as a JSON array of objects. DO NOT include any conversational text outside the JSON."

/-- The `(item, index) => ({ ...item, id: item.id || index + 1 })`
callback of the search route: spread the item and set `id` to the
existing value when truthy, else to `index + 1`.  Spreading a non-object
contributes no modelled fields. -/
def assignId (item : Json) (index : Nat) : Json :=
  match item with
  | .obj fields =>
    match getField? fields "id" with
    | some v =>
      if v.truthy then Json.obj (setField fields "id" v)
      else Json.obj (setField fields "id" (Json.num (Int.ofNat (index + 1))))
    | none => Json.obj (setField fields "id" (Json.num (Int.ofNat (index + 1))))
  | _ => Json.obj [("id", Json.num (Int.ofNat (index + 1)))]

/-- The fallback result built when the model's search reply cannot be
parsed (or, being a parsed non-array, makes `.map` throw). -/
def searchParseFallback (query raw : String) (year : Nat) : Json :=
  Json.obj
    [("id", Json.num 1),
     ("title", Json.str ("AI Could Not Parse Results for \"" ++ query ++ "\" (Backend Error)")),
     ("source", Json.str ("OpenRouter API Parsing Issue, " ++ toString year)),
     ("snippet", Json.str ("The AI responded, but its output could not be formatted as expected by the backend. Raw response (truncated): " ++ jsTruncate raw 200 ++ "..."))]

/-- The fallback result built when the model supplied no content at all
for the search route. -/
def searchNoContentFallback (query : String) (year : Nat) : Json :=
  Json.obj
    [("id", Json.num 1),
     ("title", Json.str ("No Relevant AI Response for \"" ++ query ++ "\" (Backend Search)")),
     ("source", Json.str ("OpenRouter API, " ++ toString year)),
     ("snippet", Json.str "The AI did not provide any content for your search query via the backend.")]

/-- Lines 74-106 of the search route: the truthiness test on the reply
content, fence stripping, `JSON.parse`, the id-assigning `.map` (whose
`TypeError` on a parsed non-array lands in the same `catch` as a parse
error), and both fallbacks. -/
def searchResults (content : Option String) (query : String) (year : Nat) : List Json :=
  match content with
  | some raw =>
    if strTruthy raw then
      match Json.parse (cleanContent raw) with
      | some (.arr items) => jsMapIndexed assignId items 0
      | some _ => [searchParseFallback query raw year]
      | none => [searchParseFallback query raw year]
    else [searchNoContentFallback query year]
  | none => [searchNoContentFallback query year]

/-- The `POST /api/search` handler. -/
def searchHandler (env : Env) (upstream : OutboundCall → UpstreamResult)
    (req : SearchRequest) : RouteResult :=
  match req.query with
  | none => ⟨⟨400, Json.obj [("error", Json.str "Search query is required.")]⟩, []⟩
  | some query =>
    if strTruthy query then
      match checkApiKey env with
      | none => ⟨⟨500, apiKeyMissingBody⟩, []⟩
      | some key =>
        let call : OutboundCall :=
          ⟨OPENROUTER_API_URL, key, MODEL_TO_USE,
           [roleContent "system" searchSystemPrompt, roleContent "user" query],
           500, false⟩
        match upstream call with
        | .netError m =>
          ⟨⟨500, Json.obj [("error", Json.str "Failed to fetch search results from OpenRouter."),
                           ("details", Json.str m)]⟩, [call]⟩
        | .httpError st stTxt m =>
          ⟨⟨st, Json.obj [("error", Json.str ("OpenRouter API error: " ++ stTxt)),
                          ("details", Json.str (jsOrDefault m "Unknown error from OpenRouter"))]⟩,
           [call]⟩
        | .ok content =>
          ⟨⟨200, Json.obj [("results", Json.arr (searchResults content query env.year))]⟩, [call]⟩
    else ⟨⟨400, Json.obj [("error", Json.str "Search query is required.")]⟩, []⟩

/-- System prompt of `POST /api/extract`. -/
def extractSystemPrompt : String :=
  "You are an AI assistant specialized in extracting key information and structuring it into a concise outline. Format the outline using bullet points and sub-bullet points. Do NOT include any conversational text, only the outline."

/-- The `POST /api/extract` handler. -/
def extractHandler (env : Env) (upstream : OutboundCall → UpstreamResult)
    (req : ExtractRequest) : RouteResult :=
  match req.textToExtract with
  | none => ⟨⟨400, Json.obj [("error", Json.str "Text to extract is required.")]⟩, []⟩
  | some text =>
    if strTruthy text then
      match checkApiKey env with
      | none => ⟨⟨500, apiKeyMissingBody⟩, []⟩
      | some key =>
        let call : OutboundCall :=
          ⟨OPENROUTER_API_URL, key, MODEL_TO_USE,
           [roleContent "system" extractSystemPrompt,
            roleContent "user" ("Create a concise outline from the following text:\n\n" ++ text)],
           300, false⟩
        match upstream call with
        | .netError m =>
          ⟨⟨500, Json.obj [("error", Json.str "Failed to generate outline from OpenRouter."),
                           ("details", Json.str m)]⟩, [call]⟩
        | .httpError st stTxt m =>
          ⟨⟨st, Json.obj [("error", Json.str ("OpenRouter API error during extraction: " ++ stTxt)),
                          ("details", Json.str (jsOrDefault m "Unknown error from OpenRouter"))]⟩,
           [call]⟩
        | .ok content =>
          match content with
          | some c =>
            if strTruthy c then ⟨⟨200, Json.obj [("outline", Json.str c)]⟩, [call]⟩
            else ⟨⟨500, Json.obj [("error", Json.str "AI did not provide outline content.")]⟩, [call]⟩
          | none => ⟨⟨500, Json.obj [("error", Json.str "AI did not provide outline content.")]⟩, [call]⟩
    else ⟨⟨400, Json.obj [("error", Json.str "Text to extract is required.")]⟩, []⟩

/-- System prompt of `POST /api/insight`. -/
def insightSystemPrompt : String :=
  "You are an AI research assistant. Given a piece of text, identify the most significant, non-obvious, and actionable insight. Frame it as a concise, thought-provoking statement or a short paragraph. Do NOT include any conversational text outside of the insight itself."

/-- The `POST /api/insight` handler. -/
def insightHandler (env : Env) (upstream : OutboundCall → UpstreamResult)
    (req : InsightRequest) : RouteResult :=
  match req.textForInsight with
  | none => ⟨⟨400, Json.obj [("error", Json.str "Text for insight is required.")]⟩, []⟩
  | some text =>
    if strTruthy text then
      match checkApiKey env with
      | none => ⟨⟨500, apiKeyMissingBody⟩, []⟩
      | some key =>
        let call : OutboundCall :=
          ⟨OPENROUTER_API_URL, key, MODEL_TO_USE,
           [roleContent "system" insightSystemPrompt,
            roleContent "user" ("Generate a key insight from the following text:\n\n" ++ text)],
           150, false⟩
        match upstream call with
        | .netError m =>
          ⟨⟨500, Json.obj [("error", Json.str "Failed to generate insight from OpenRouter."),
                           ("details", Json.str m)]⟩, [call]⟩
        | .httpError st stTxt m =>
          ⟨⟨st, Json.obj [("error", Json.str ("OpenRouter API error during insight generation: " ++ stTxt)),
                          ("details", Json.str (jsOrDefault m "Unknown error from OpenRouter"))]⟩,
           [call]⟩
        | .ok content =>
          match content with
          | some c =>
            if strTruthy c then ⟨⟨200, Json.obj [("insight", Json.str c)]⟩, [call]⟩
            else ⟨⟨500, Json.obj [("error", Json.str "AI did not provide insight content.")]⟩, [call]⟩
          | none => ⟨⟨500, Json.obj [("error", Json.str "AI did not provide insight content.")]⟩, [call]⟩
    else ⟨⟨400, Json.obj [("error", Json.str "Text for insight is required.")]⟩, []⟩

/-- System prompt of `POST /api/populate_form`. -/
def populateSystemPrompt : String :=
  "You are an expert data extractor. Your task is to precisely answer given questions based ONLY on the provided source text. Respond strictly in the specified JSON format. If information for a question is not found, use an empty string as the value."

/-- The user-message template literal of the form-population route,
including its source indentation, the interpolated source text and the
`- `-prefixed question lines. -/
def buildPopulatePrompt (sourceText : String) (questions : List Json) : String :=
  "Based on the following source text, answer each of the following questions concisely. Provide only the answer for each question, or leave it blank if the information is not directly present. Format your complete response as a JSON object where keys are the exact questions and values are the extracted answers. Ensure the JSON is valid and contains no extra text.\n\n    Source Text:\n    ---\n    "
  ++ sourceText ++
  "\n    ---\n\n    Questions to Answer:\n    "
  ++ String.intercalate "\n" (questions.map (fun q => "- " ++ jsToString q)) ++
  "\n\n    Example JSON structure:\n    \x7b\n      \"Question 1\": \"Answer to Q1\",\n      \"Question 2\": \"Answer to Q2\",\n      \"Question 3\": \"\"\n    \x7d\n    "

/-- The 500 error message of the form-population `catch` branch. -/
def populateParseFailMsg (raw : String) : String :=
  "AI response parsing failed. Raw AI output (truncated): " ++ jsTruncate raw 200 ++ "..."

/-- One iteration of the `questions.forEach` loop:
`finalPopulatedFields[q] = populatedFields[q] !== undefined ? populatedFields[q] : ''`.
The lookup is full JS property access (`jsMember`); an assignment to
the key `__proto__` hits the inherited setter and creates no own
property. -/
def populateAssign (parsed : Json) (acc : List (String × JsProp)) (q : Json) :
    List (String × JsProp) :=
  let k := jsToString q
  if k = "__proto__" then acc
  else setFieldP acc k (jsAssignValue (jsMember parsed k))

/-- The `questions.forEach` loop: fill `finalPopulatedFields[q]` with
the looked-up answer when defined, else the empty string. -/
def populateFill (questions : List Json) (parsed : Json) : List (String × JsProp) :=
  questions.foldl (populateAssign parsed) []

/-- Lines 308-324 of the form-population route together with the
`res.json` serialisation of the resulting object: fence stripping,
`JSON.parse`, the `questions.forEach` fill, and the drop of
non-JSON-representable (function-valued) properties by
`JSON.stringify`.  A parse failure lands in the `catch` with the
truncated-output message; so does the `TypeError` thrown by
`populatedFields[q]` when the reply parsed to `null` and at least one
question is looked up. -/
def populateShape (questions : List Json) (raw : String) : Except String (List (String × Json)) :=
  match Json.parse (cleanContent raw) with
  | none => .error (populateParseFailMsg raw)
  | some .null =>
    if questions.isEmpty then .ok [] else .error (populateParseFailMsg raw)
  | some parsed => .ok (serializeFields (populateFill questions parsed))

/-- The `POST /api/populate_form` handler. -/
def populateHandler (env : Env) (upstream : OutboundCall → UpstreamResult)
    (req : PopulateRequest) : RouteResult :=
  match req.sourceText, req.questions with
  | some sourceText, some (.arr (q0 :: qs)) =>
    if strTruthy sourceText then
      match checkApiKey env with
      | none => ⟨⟨500, apiKeyMissingBody⟩, []⟩
      | some key =>
        let call : OutboundCall :=
          ⟨OPENROUTER_API_URL, key, MODEL_TO_USE,
           [roleContent "system" populateSystemPrompt,
            roleContent "user" (buildPopulatePrompt sourceText (q0 :: qs))],
           1000, true⟩
        match upstream call with
        | .netError m =>
          ⟨⟨500, Json.obj [("error", Json.str "Failed to populate form from OpenRouter."),
                           ("details", Json.str m)]⟩, [call]⟩
        | .httpError st stTxt m =>
          ⟨⟨st, Json.obj [("error", Json.str ("OpenRouter API error during form population: " ++ stTxt)),
                          ("details", Json.str (jsOrDefault m "Unknown error from OpenRouter"))]⟩,
           [call]⟩
        | .ok content =>
          match content with
          | some raw =>
            if strTruthy raw then
              match populateShape (q0 :: qs) raw with
              | .ok fields => ⟨⟨200, Json.obj [("populated_fields", Json.obj fields)]⟩, [call]⟩
              | .error msg => ⟨⟨500, Json.obj [("error", Json.str msg)]⟩, [call]⟩
            else ⟨⟨500, Json.obj [("error", Json.str "AI did not provide content for form population.")]⟩, [call]⟩
          | none => ⟨⟨500, Json.obj [("error", Json.str "AI did not provide content for form population.")]⟩, [call]⟩
    else ⟨⟨400, Json.obj [("error", Json.str "Source text and a list of questions are required.")]⟩, []⟩
  | _, _ => ⟨⟨400, Json.obj [("error", Json.str "Source text and a list of questions are required.")]⟩, []⟩

/-- The fixed system turn the chat route prepends to the caller's
conversation history. -/
def chatSystemMessage : Json :=
  roleContent "system" "You are a helpful and knowledgeable AI research assistant. Provide concise, accurate, and relevant information. If asked about something beyond your knowledge, admit it gracefully. Keep responses helpful and on topic."

/-- The `POST /api/chat` handler. -/
def chatHandler (env : Env) (upstream : OutboundCall → UpstreamResult)
    (req : ChatRequest) : RouteResult :=
  match req.messages with
  | some (.arr (m0 :: ms)) =>
    match checkApiKey env with
    | none => ⟨⟨500, apiKeyMissingBody⟩, []⟩
    | some key =>
      let call : OutboundCall :=
        ⟨OPENROUTER_API_URL, key, MODEL_TO_USE,
         chatSystemMessage :: m0 :: ms,
         500, false⟩
      match upstream call with
      | .netError m =>
        ⟨⟨500, Json.obj [("error", Json.str "Failed to get chat response from OpenRouter."),
                         ("details", Json.str m)]⟩, [call]⟩
      | .httpError st stTxt m =>
        ⟨⟨st, Json.obj [("error", Json.str ("OpenRouter API error during chat: " ++ stTxt)),
                        ("details", Json.str (jsOrDefault m "Unknown error from OpenRouter"))]⟩,
         [call]⟩
      | .ok content =>
        match content with
        | some c =>
          if strTruthy c then ⟨⟨200, Json.obj [("reply", Json.str c)]⟩, [call]⟩
          else ⟨⟨500, Json.obj [("error", Json.str "AI did not provide content for chat response.")]⟩, [call]⟩
        | none => ⟨⟨500, Json.obj [("error", Json.str "AI did not provide content for chat response.")]⟩, [call]⟩
  | _ => ⟨⟨400, Json.obj [("error", Json.str "Messages array is required for chat.")]⟩, []⟩

/-- `GET /` sends a fixed liveness text. -/
def rootResponse : HttpResponse :=
  ⟨200, Json.str "Research Assistant Backend is running!"⟩

end Part000

/-- Substring containment, on the underlying character lists. -/
def strContainsData (s sub : String) : Prop :=
  ∃ a b, s.data = a ++ sub.data ++ b

/-! ### Helper lemmas about the JS primitives -/

theorem getField?_setField (acc : List (String × Json)) (k : String) (v : Json) (x : String) :
    getField? (setField acc k v) x = if x = k then some v else getField? acc x := by
  induction acc with
  | nil =>
    by_cases h : x = k
    · simp [setField, getField?, h]
    · simp [setField, getField?, h]
      exact fun h2 => h (Eq.symm h2)
  | cons p rest ih =>
    obtain ⟨k0, v0⟩ := p
    by_cases h0 : k0 = k <;> by_cases hx : k0 = x <;> by_cases hxk : x = k <;>
      simp_all [setField, getField?]

theorem setField_absent (f : List (String × Json)) (k : String) (v : Json)
    (h : getField? f k = none) : setField f k v = f ++ [(k, v)] := by
  induction f with
  | nil => rfl
  | cons p rest ih =>
    obtain ⟨k0, v0⟩ := p
    by_cases h0 : k0 = k
    · simp [getField?, h0] at h
    · simp [getField?, h0] at h
      simp [setField, h0, ih h]

theorem setField_present_self (f : List (String × Json)) (k : String) (v : Json)
    (h : getField? f k = some v) : setField f k v = f := by
  induction f with
  | nil => simp [getField?] at h
  | cons p rest ih =>
    obtain ⟨k0, v0⟩ := p
    by_cases h0 : k0 = k
    · simp [getField?, h0] at h
      simp [setField, h0, h]
    · simp [getField?, h0] at h
      simp [setField, h0, ih h]

theorem jsMapIndexed_length (f : Json → Nat → Json) (l : List Json) (s : Nat) :
    (jsMapIndexed f l s).length = l.length := by
  induction l generalizing s with
  | nil => rfl
  | cons x xs ih => simp [jsMapIndexed, ih]

theorem jsMapIndexed_get (f : Json → Nat → Json) (l : List Json) (s i : Nat)
    (h : i < l.length) (h2 : i < (jsMapIndexed f l s).length) :
    (jsMapIndexed f l s).get ⟨i, h2⟩ = f (l.get ⟨i, h⟩) (s + i) := by
  induction l generalizing s i with
  | nil => cases h
  | cons x xs ih =>
    cases i with
    | zero => simp [jsMapIndexed]
    | succ n =>
      have hn : n < xs.length := Nat.lt_of_succ_lt_succ h
      have hn2 : n < (jsMapIndexed f xs (s + 1)).length := by
        rw [jsMapIndexed_length]; exact hn
      show (jsMapIndexed f xs (s + 1)).get ⟨n, hn2⟩ = f ((x :: xs).get ⟨n + 1, h⟩) (s + (n + 1))
      rw [ih (s + 1) n hn hn2]
      show f (xs.get ⟨n, hn⟩) (s + 1 + n) = f (xs.get ⟨n, hn⟩) (s + (n + 1))
      congr 1
      omega

theorem getField?_serializeFields_setFieldP (acc : List (String × JsProp))
    (k : String) (v : Json) (x : String) :
    getField? (serializeFields (setFieldP acc k (JsProp.val v))) x =
      if x = k then some v else getField? (serializeFields acc) x := by
  induction acc with
  | nil =>
    by_cases h : x = k
    · simp [setFieldP, serializeFields, getField?, h]
    · simp [setFieldP, serializeFields, getField?, h]
      exact fun h2 => h (Eq.symm h2)
  | cons p rest ih =>
    obtain ⟨k0, p0⟩ := p
    by_cases h0 : k0 = k
    · by_cases hx : x = k
      · cases p0 <;> simp_all [setFieldP, serializeFields, getField?]
      · have hx2 : ¬k = x := fun h2 => hx (Eq.symm h2)
        cases p0 <;> simp_all [setFieldP, serializeFields, getField?]
    · by_cases hx : x = k
      · by_cases hx0 : k0 = x
        · exact absurd (hx0.trans hx) h0
        · cases p0 <;> simp_all [setFieldP, serializeFields, getField?]
      · have hx2 : ¬k = x := fun h2 => hx (Eq.symm h2)
        by_cases hx0 : k0 = x
        · cases p0 <;> simp_all [setFieldP, serializeFields, getField?]
        · cases p0 <;> simp_all [setFieldP, serializeFields, getField?]

theorem getField?_populateFill_obj (fieldsIn : List (String × Json)) (qs : List Json)
    (acc : List (String × JsProp)) (x : String)
    (hq : ∀ q ∈ qs, objectPrototypeProps.contains (jsToString q) = false) :
    getField? (serializeFields (qs.foldl (ServerJs.populateAssign (Json.obj fieldsIn)) acc)) x =
      if x ∈ qs.map jsToString then some ((getField? fieldsIn x).getD (Json.str ""))
      else getField? (serializeFields acc) x := by
  induction qs generalizing acc with
  | nil => simp
  | cons q qs ih =>
    have hq0 : objectPrototypeProps.contains (jsToString q) = false :=
      hq q (List.mem_cons_self q qs)
    have hqrest : ∀ p ∈ qs, objectPrototypeProps.contains (jsToString p) = false :=
      fun p hp => hq p (List.mem_cons_of_mem q hp)
    have hkp : ¬(jsToString q = "__proto__") := by
      intro h
      rw [h] at hq0
      exact absurd hq0 (by decide)
    have hq0m : ¬(jsToString q ∈ objectPrototypeProps) := by simpa using hq0
    have hassign : jsAssignValue (jsMember (Json.obj fieldsIn) (jsToString q)) =
        JsProp.val ((getField? fieldsIn (jsToString q)).getD (Json.str "")) := by
      cases hf : getField? fieldsIn (jsToString q) <;>
        simp [jsMember, jsAssignValue, hf, hq0m]
    have hstep : ServerJs.populateAssign (Json.obj fieldsIn) acc q =
        setFieldP acc (jsToString q)
          (JsProp.val ((getField? fieldsIn (jsToString q)).getD (Json.str ""))) := by
      simp [ServerJs.populateAssign, hkp, hassign]
    simp only [List.foldl_cons, List.map_cons, List.mem_cons, hstep]
    rw [ih _ hqrest]
    by_cases hx : x = jsToString q <;> by_cases hmem : x ∈ qs.map jsToString <;>
      simp [hx, hmem, getField?_serializeFields_setFieldP]

/-! ### Lemmas about fence stripping and parse failure -/

theorem parseValue_backtick (fuel : Nat) (cs : List Char) :
    parseValue (fuel + 1) (backtick :: cs) = none := rfl

theorem parse_head_backtick (cs : List Char) :
    Json.parse (String.mk (backtick :: cs)) = none := by
  show (match parseValue ((backtick :: cs).length * 2 + 2) (backtick :: cs) with
        | some (v, r) => if (r.dropWhile jsonWsChar).isEmpty then some v else none
        | none => none) = none
  rw [show (backtick :: cs).length * 2 + 2 = (backtick :: cs).length * 2 + 1 + 1 from rfl]
  rw [parseValue_backtick]

theorem string_data_append (s t : String) : (s ++ t).data = s.data ++ t.data := by
  cases s; cases t; rfl

theorem dropWhile_append_backticks (xs : List Char) :
    ∃ zs, (xs ++ '\n' :: backtick :: backtick :: backtick :: []).dropWhile isJsWs
        = zs ++ backtick :: backtick :: backtick :: [] := by
  induction xs with
  | nil => exact ⟨[], rfl⟩
  | cons x xs ih =>
    by_cases hx : isJsWs x
    · obtain ⟨zs, h⟩ := ih
      exact ⟨zs, by simp [List.dropWhile_cons, hx, h]⟩
    · exact ⟨x :: xs ++ ['\n'], by simp [List.dropWhile_cons, hx]⟩

theorem isJsWs_backtick : isJsWs backtick = false := rfl

theorem stripTrailingFence_plain_fence (bs : List Char) :
    stripTrailingFence
        (backtick :: backtick :: backtick :: '\n' :: (bs ++ '\n' :: backtick :: backtick :: backtick :: [])) =
      backtick :: backtick :: backtick :: '\n' :: (bs ++ ['\n']) := by
  have hrev :
      (backtick :: backtick :: backtick :: '\n' :: (bs ++ '\n' :: backtick :: backtick :: backtick :: [])).reverse =
        backtick :: backtick :: backtick :: '\n' :: (bs.reverse ++ '\n' :: backtick :: backtick :: backtick :: []) := by
    simp
  rw [stripTrailingFence, hrev]
  rw [List.dropWhile_cons, isJsWs_backtick]
  simp

theorem cleanList_plain_fence (bs : List Char) :
    ∃ zs, cleanList
        (backtick :: backtick :: backtick :: '\n' :: (bs ++ '\n' :: backtick :: backtick :: backtick :: [])) =
      backtick :: backtick :: backtick :: zs := by
  have h1 : stripLeadingJsonFence
      (backtick :: backtick :: backtick :: '\n' :: (bs ++ '\n' :: backtick :: backtick :: backtick :: [])) =
      backtick :: backtick :: backtick :: '\n' :: (bs ++ '\n' :: backtick :: backtick :: backtick :: []) := rfl
  have h2 := stripTrailingFence_plain_fence bs
  have h3 : List.dropWhile isJsWs (backtick :: backtick :: backtick :: '\n' :: (bs ++ ['\n'])) =
      backtick :: backtick :: backtick :: '\n' :: (bs ++ ['\n']) := by
    rw [List.dropWhile_cons, isJsWs_backtick]
    simp
  have hrev2 : (backtick :: backtick :: backtick :: '\n' :: (bs ++ ['\n'])).reverse =
      '\n' :: (bs.reverse ++ '\n' :: backtick :: backtick :: backtick :: []) := by
    simp
  obtain ⟨zs, hz⟩ := dropWhile_append_backticks bs.reverse
  refine ⟨zs.reverse, ?_⟩
  simp only [cleanList]
  rw [h1, h2, h3, hrev2]
  rw [List.dropWhile_cons]
  rw [show isJsWs '\n' = true from rfl]
  rw [if_pos rfl]
  rw [hz]
  simp

/-! ### Claim C1 (form population key set) -/

/-- Claim C1, counterexample: the original claim fails in three ways.
The reply `null` parses as JSON, yet the route returns no
`populated_fields` mapping at all (the member lookup throws and the
`catch` answers 500).  For the reply `[42]` and question `"0"`, the
array index property is defined, so the output maps `"0"` to `42`
rather than to a model answer or the empty string.  For the reply `{}`
and question `"toString"`, the inherited `Object.prototype.toString`
function is defined, so the question's key is dropped from the JSON
response entirely. -/
theorem populate_null_reply_cex :
    Json.parse (cleanContent "null") = some Json.null ∧
    (ServerJs.populateHandler ⟨some "sk", 2026⟩ (fun _ => UpstreamResult.ok (some "null"))
        ⟨some "text", some (Json.arr [Json.str "A", Json.str "B"])⟩).response =
      ⟨500, Json.obj [("error",
        Json.str "AI response parsing failed. Raw AI output (truncated): null...")]⟩ ∧
    ServerJs.populateShape [Json.str "0"] "[42]" = .ok [("0", Json.num 42)] ∧
    ServerJs.populateShape [Json.str "toString"] "\x7b\x7d" = .ok [] :=
  ⟨rfl, rfl, rfl, rfl⟩

/-- Claim C1 (amended): whenever the upstream reply content is present
and parses as a JSON object, and no requested question is one of the
twelve `Object.prototype` property names, the returned
`populated_fields` mapping has exactly the requested question list as
its key set: every requested question is a key, mapped to the object's
own-property answer when present and to the empty string otherwise,
and every key the model returned that was not requested is absent; the
route then responds 200 with that mapping.  Outside these hypotheses
the key set can differ — a `null` parse makes the lookup throw and the
route answer 500, a prototype-inherited lookup such as `"toString"`
drops the question's key from the response, and an array or string
parse exposes index and `length` properties as answers — see the
counterexample. -/
theorem populate_form_key_set (raw : String) (fieldsIn : List (String × Json))
    (q0 : Json) (qs : List Json)
    (hraw : strTruthy raw = true)
    (hp : Json.parse (cleanContent raw) = some (Json.obj fieldsIn))
    (hq : ∀ q ∈ q0 :: qs, objectPrototypeProps.contains (jsToString q) = false) :
    ServerJs.populateShape (q0 :: qs) raw =
      .ok (serializeFields (ServerJs.populateFill (q0 :: qs) (Json.obj fieldsIn))) ∧
    (∀ k, getField? (serializeFields (ServerJs.populateFill (q0 :: qs) (Json.obj fieldsIn))) k =
      if k ∈ (q0 :: qs).map jsToString then some ((getField? fieldsIn k).getD (Json.str ""))
      else none) ∧
    (∀ (env : Env) (key st : String), ServerJs.checkApiKey env = some key →
      strTruthy st = true →
      (ServerJs.populateHandler env (fun _ => UpstreamResult.ok (some raw))
          ⟨some st, some (Json.arr (q0 :: qs))⟩).response =
        ⟨200, Json.obj [("populated_fields",
          Json.obj (serializeFields (ServerJs.populateFill (q0 :: qs) (Json.obj fieldsIn))))]⟩) := by
  have hshape : ServerJs.populateShape (q0 :: qs) raw =
      .ok (serializeFields (ServerJs.populateFill (q0 :: qs) (Json.obj fieldsIn))) := by
    simp only [ServerJs.populateShape, hp]
  refine ⟨hshape, ?_, ?_⟩
  · intro k
    have h := getField?_populateFill_obj fieldsIn (q0 :: qs) [] k hq
    rw [show ServerJs.populateFill (q0 :: qs) (Json.obj fieldsIn) =
        (q0 :: qs).foldl (ServerJs.populateAssign (Json.obj fieldsIn)) [] from rfl]
    rw [h]
    by_cases hmem : k ∈ (q0 :: qs).map jsToString <;>
      simp [hmem, serializeFields, getField?]
  · intro env key st hk hst
    simp [ServerJs.populateHandler, hk, hst, hraw, hshape]

/-- Witness for the amended C1 theorem at the spec's own example:
questions `["A","B"]` with upstream reply `{"A":"x"}` produce exactly
`{"A":"x","B":""}`. -/
theorem populate_form_key_set_witness :
    ServerJs.populateShape [Json.str "A", Json.str "B"] "\x7b\"A\":\"x\"\x7d" =
      .ok (serializeFields (ServerJs.populateFill [Json.str "A", Json.str "B"]
        (Json.obj [("A", Json.str "x")]))) ∧
    serializeFields (ServerJs.populateFill [Json.str "A", Json.str "B"]
        (Json.obj [("A", Json.str "x")])) =
      [("A", Json.str "x"), ("B", Json.str "")] := by
  constructor
  · exact (populate_form_key_set "\x7b\"A\":\"x\"\x7d" [("A", Json.str "x")]
      (Json.str "A") [Json.str "B"] rfl rfl (by decide)).1
  · rfl

/-! ### Claim C2 (sequential search identifiers) -/

/-- Claim C2, counterexample: an item that already carries the
identifier `0` does not keep it; `item.id || index + 1` discards the
falsy value and writes `1`. -/
theorem search_falsy_id_cex :
    ServerJs.searchResults (some "[\x7b\"id\":0\x7d]") "q" 2026 =
      [Json.obj [("id", Json.num 1)]] ∧
    Json.num 1 ≠ Json.num 0 := by
  refine ⟨rfl, fun h => ?_⟩
  injection h with h2
  exact absurd h2 (by decide)

/-- Claim C2 (amended): when the reply parses as a JSON array, the
output preserves array order and length; the item at index `i` receives
the identifier `i + 1` whenever it has no `id` field, and keeps its own
identifier whenever that identifier is truthy (a falsy identifier such
as `0` is replaced, see the counterexample). -/
theorem search_sequential_ids (raw q : String) (year : Nat) (items : List Json)
    (hraw : strTruthy raw = true)
    (hparse : Json.parse (cleanContent raw) = some (Json.arr items)) :
    (ServerJs.searchResults (some raw) q year).length = items.length ∧
    ∀ (i : Nat) (hi : i < items.length)
      (ho : i < (ServerJs.searchResults (some raw) q year).length)
      (f : List (String × Json)), items.get ⟨i, hi⟩ = Json.obj f →
      (getField? f "id" = none →
        (ServerJs.searchResults (some raw) q year).get ⟨i, ho⟩ =
          Json.obj (f ++ [("id", Json.num (Int.ofNat (i + 1)))])) ∧
      (∀ v, getField? f "id" = some v → v.truthy = true →
        (ServerJs.searchResults (some raw) q year).get ⟨i, ho⟩ = Json.obj f) := by
  have hres : ServerJs.searchResults (some raw) q year =
      jsMapIndexed ServerJs.assignId items 0 := by
    simp only [ServerJs.searchResults, hraw, hparse, if_true]
  constructor
  · rw [hres, jsMapIndexed_length]
  · intro i hi ho f hf
    revert ho
    rw [hres]
    intro ho
    rw [jsMapIndexed_get ServerJs.assignId items 0 i hi ho, hf]
    constructor
    · intro hnone
      simp only [ServerJs.assignId, hnone]
      rw [setField_absent f "id" _ hnone]
      simp
    · intro v hv htr
      simp only [ServerJs.assignId, hv, htr, if_true]
      rw [setField_present_self f "id" v hv]

/-- Witness for the amended C2 theorem: two items, the first without an
`id` (receives `1`), the second with the truthy id `7` (kept). -/
theorem search_sequential_ids_witness :
    (ServerJs.searchResults (some "[\x7b\"title\":\"t\"\x7d,\x7b\"id\":7\x7d]") "q" 2026).length = 2 ∧
    (ServerJs.searchResults (some "[\x7b\"title\":\"t\"\x7d,\x7b\"id\":7\x7d]") "q" 2026).get
        ⟨0, by decide⟩ = Json.obj [("title", Json.str "t"), ("id", Json.num 1)] ∧
    (ServerJs.searchResults (some "[\x7b\"title\":\"t\"\x7d,\x7b\"id\":7\x7d]") "q" 2026).get
        ⟨1, by decide⟩ = Json.obj [("id", Json.num 7)] := by
  have h := search_sequential_ids "[\x7b\"title\":\"t\"\x7d,\x7b\"id\":7\x7d]" "q" 2026
    [Json.obj [("title", Json.str "t")], Json.obj [("id", Json.num 7)]] rfl rfl
  refine ⟨h.1, ?_, ?_⟩
  · exact (h.2 0 (by decide) (by decide) [("title", Json.str "t")] rfl).1 rfl
  · exact (h.2 1 (by decide) (by decide) [("id", Json.num 7)] rfl).2 (Json.num 7) rfl rfl

/-! ### Claim C3 (search degrades gracefully) -/

/-- Claim C3: when the upstream call succeeds but the reply content is
missing or empty, or present and unparsable, the search request still
succeeds (status 200) and returns exactly one synthetic placeholder; in
the parse-failure case the placeholder's title contains the original
query and its snippet contains the raw reply truncated to 200
characters. -/
theorem search_fallback_single (q raw : String) (year : Nat)
    (hq : strTruthy q = true)
    (hraw : strTruthy raw = true)
    (hfail : Json.parse (cleanContent raw) = none) :
    ServerJs.searchResults none q year = [ServerJs.searchNoContentFallback q year] ∧
    ServerJs.searchResults (some "") q year = [ServerJs.searchNoContentFallback q year] ∧
    ServerJs.searchResults (some raw) q year = [ServerJs.searchParseFallback q raw year] ∧
    (∃ t, memberGet (ServerJs.searchParseFallback q raw year) "title" = some (Json.str t) ∧
      strContainsData t q) ∧
    (∃ sn, memberGet (ServerJs.searchParseFallback q raw year) "snippet" = some (Json.str sn) ∧
      strContainsData sn (jsTruncate raw 200)) ∧
    (∀ (env : Env) (key : String), ServerJs.checkApiKey env = some key →
      (ServerJs.searchHandler env (fun _ => UpstreamResult.ok (some raw)) ⟨some q⟩).response =
        ⟨200, Json.obj [("results", Json.arr [ServerJs.searchParseFallback q raw env.year])]⟩ ∧
      (ServerJs.searchHandler env (fun _ => UpstreamResult.ok none) ⟨some q⟩).response =
        ⟨200, Json.obj [("results", Json.arr [ServerJs.searchNoContentFallback q env.year])]⟩) := by
  refine ⟨rfl, rfl, ?_, ?_, ?_, ?_⟩
  · simp only [ServerJs.searchResults, hraw, hfail, if_true]
  · refine ⟨"AI Could Not Parse Results for \"" ++ q ++ "\" (Backend Error)", rfl, ?_⟩
    refine ⟨("AI Could Not Parse Results for \"").data, ("\" (Backend Error)").data, ?_⟩
    simp [string_data_append]
  · refine ⟨"The AI responded, but its output could not be formatted as expected by the backend. Raw response (truncated): "
        ++ jsTruncate raw 200 ++ "...", rfl, ?_⟩
    refine ⟨("The AI responded, but its output could not be formatted as expected by the backend. Raw response (truncated): ").data,
      ("...").data, ?_⟩
    simp [string_data_append]
  · intro env key hk
    constructor
    · simp [ServerJs.searchHandler, ServerJs.searchResults, hq, hraw, hfail, hk]
    · simp [ServerJs.searchHandler, ServerJs.searchResults, hq, hk]

/-- Witness for the C3 theorem at a concrete unparsable reply. -/
theorem search_fallback_single_witness :
    ServerJs.searchResults (some "not json") "climate" 2026 =
      [ServerJs.searchParseFallback "climate" "not json" 2026] ∧
    (ServerJs.searchHandler ⟨some "sk", 2026⟩
        (fun _ => UpstreamResult.ok (some "not json")) ⟨some "climate"⟩).response =
      ⟨200, Json.obj [("results",
        Json.arr [ServerJs.searchParseFallback "climate" "not json" 2026])]⟩ := by
  have h := search_fallback_single "climate" "not json" 2026 rfl rfl rfl
  exact ⟨h.2.2.1, (h.2.2.2.2.2 ⟨some "sk", 2026⟩ "sk" rfl).1⟩

/-! ### Claim C4 (when the credential is read) -/

/-- Claim C4, counterexample: the same request under the same upstream
behaviour, in two environments that differ only in the credential
variable, yields different responses — the handler reads
`process.env.OPENROUTER_API_KEY` at request time through `checkApiKey`,
not once at startup. -/
theorem credential_env_change_cex :
    (ServerJs.searchHandler ⟨some "sk", 2026⟩
        (fun _ => UpstreamResult.ok (some "hi")) ⟨some "hello"⟩).response.status = 200 ∧
    (ServerJs.searchHandler ⟨none, 2026⟩
        (fun _ => UpstreamResult.ok (some "hi")) ⟨some "hello"⟩).response.status = 500 ∧
    (200 : Nat) ≠ 500 := ⟨rfl, rfl, by decide⟩

/-- Every branch of the search route after a successful `checkApiKey`
records exactly the one outbound call it made. -/
theorem searchHandler_calls_eq (env : Env) (up : OutboundCall → UpstreamResult)
    (q key : String) (hq : strTruthy q = true)
    (hk : ServerJs.checkApiKey env = some key) :
    (ServerJs.searchHandler env up ⟨some q⟩).calls =
      [⟨ServerJs.OPENROUTER_API_URL, key, ServerJs.MODEL_TO_USE,
        [roleContent "system" ServerJs.searchSystemPrompt, roleContent "user" q],
        500, false⟩] := by
  simp only [ServerJs.searchHandler, hq, hk, if_true]
  cases up ⟨ServerJs.OPENROUTER_API_URL, key, ServerJs.MODEL_TO_USE,
    [roleContent "system" ServerJs.searchSystemPrompt, roleContent "user" q],
    500, false⟩ <;> rfl

/-- Claim C4 (amended): the credential is read from the environment on
every request by `checkApiKey` (startup only logs its presence), so
request behaviour tracks the environment current at request time: the
same valid request is refused with the 500 configuration error and no
outbound call when the credential is absent, and proceeds to exactly one
outbound call when it is present. -/
theorem credential_read_per_request (envA envB : Env)
    (up : OutboundCall → UpstreamResult) (q key : String)
    (hq : strTruthy q = true)
    (hA : ServerJs.checkApiKey envA = some key)
    (hB : ServerJs.checkApiKey envB = none) :
    (ServerJs.searchHandler envB up ⟨some q⟩).response = ⟨500, apiKeyMissingBody⟩ ∧
    (ServerJs.searchHandler envB up ⟨some q⟩).calls = [] ∧
    (ServerJs.searchHandler envA up ⟨some q⟩).calls.length = 1 := by
  refine ⟨?_, ?_, ?_⟩
  · simp [ServerJs.searchHandler, hq, hB]
  · simp [ServerJs.searchHandler, hq, hB]
  · rw [searchHandler_calls_eq envA up q key hq hA]
    rfl

/-- Witness for the amended C4 theorem with the credential present in
one environment and absent in the other. -/
theorem credential_read_per_request_witness :
    (ServerJs.searchHandler ⟨none, 2026⟩
        (fun _ => UpstreamResult.ok (some "hi")) ⟨some "hello"⟩).response =
      ⟨500, apiKeyMissingBody⟩ ∧
    (ServerJs.searchHandler ⟨none, 2026⟩
        (fun _ => UpstreamResult.ok (some "hi")) ⟨some "hello"⟩).calls = [] ∧
    (ServerJs.searchHandler ⟨some "sk", 2026⟩
        (fun _ => UpstreamResult.ok (some "hi")) ⟨some "hello"⟩).calls.length = 1 :=
  credential_read_per_request ⟨some "sk", 2026⟩ ⟨none, 2026⟩
    (fun _ => UpstreamResult.ok (some "hi")) "hello" "sk" rfl rfl rfl

/-! ### Claim C5 (cross-origin policy) -/

/-- Claim C5, counterexample: the CORS layer installed by
`src/server.js` is the default `cors()`, which permits an origin that is
not in the allow-list of the updated configuration, and does not enable
credentials. -/
theorem cors_default_allows_any_cex :
    ServerJs.corsOriginAllowed (some "http://evil.example") = true ∧
    Part000.allowedOrigins.contains "http://evil.example" = false ∧
    ServerJs.corsCredentials = false := ⟨rfl, by decide, rfl⟩

/-- Claim C5 (amended): only the updated configuration of the second
file enforces the allow-list — a request carrying a (truthy) Origin
header is permitted, with credentials, exactly when the origin is in
the fixed list, while origin-less requests pass; `src/server.js` as
shipped installs the default `cors()`, which permits every origin and
does not enable credentials. -/
theorem cors_allowlist_configs :
    (∀ o : String, Part000.corsOriginAllowed (some o) =
      (!strTruthy o || Part000.allowedOrigins.contains o)) ∧
    Part000.corsOriginAllowed none = true ∧
    Part000.corsCredentials = true ∧
    (∀ o : Option String, ServerJs.corsOriginAllowed o = true) ∧
    ServerJs.corsCredentials = false := by
  refine ⟨fun o => rfl, rfl, rfl, fun o => ?_, rfl⟩
  cases o <;> rfl

/-! ### Claim C6 (input validation) -/

/-- Claim C6: on each of the five POST routes, any request whose
required field is missing (or otherwise fails the route's truthiness /
`Array.isArray` / non-emptiness test) receives status 400 with the
route's specific non-empty error message and triggers no outbound call;
the only requests not so rejected are those carrying the required field
in valid form. -/
theorem validation_missing_fields (env : Env) (up : OutboundCall → UpstreamResult) :
    (∀ qv : Option String,
      ((ServerJs.searchHandler env up ⟨qv⟩).response =
          ⟨400, Json.obj [("error", Json.str "Search query is required.")]⟩ ∧
        (ServerJs.searchHandler env up ⟨qv⟩).calls = []) ∨
      (∃ q, qv = some q ∧ strTruthy q = true)) ∧
    (∀ tv : Option String,
      ((ServerJs.extractHandler env up ⟨tv⟩).response =
          ⟨400, Json.obj [("error", Json.str "Text to extract is required.")]⟩ ∧
        (ServerJs.extractHandler env up ⟨tv⟩).calls = []) ∨
      (∃ t, tv = some t ∧ strTruthy t = true)) ∧
    (∀ tv : Option String,
      ((ServerJs.insightHandler env up ⟨tv⟩).response =
          ⟨400, Json.obj [("error", Json.str "Text for insight is required.")]⟩ ∧
        (ServerJs.insightHandler env up ⟨tv⟩).calls = []) ∨
      (∃ t, tv = some t ∧ strTruthy t = true)) ∧
    (∀ (st : Option String) (qv : Option Json),
      ((ServerJs.populateHandler env up ⟨st, qv⟩).response =
          ⟨400, Json.obj [("error", Json.str "Source text and a list of questions are required.")]⟩ ∧
        (ServerJs.populateHandler env up ⟨st, qv⟩).calls = []) ∨
      (∃ s q0 qs, st = some s ∧ strTruthy s = true ∧ qv = some (Json.arr (q0 :: qs)))) ∧
    (∀ mv : Option Json,
      ((ServerJs.chatHandler env up ⟨mv⟩).response =
          ⟨400, Json.obj [("error", Json.str "Messages array is required for chat.")]⟩ ∧
        (ServerJs.chatHandler env up ⟨mv⟩).calls = []) ∨
      (∃ m0 ms, mv = some (Json.arr (m0 :: ms)))) := by
  refine ⟨?_, ?_, ?_, ?_, ?_⟩
  · intro qv
    rcases qv with _ | q
    · exact Or.inl ⟨rfl, rfl⟩
    · by_cases hq : strTruthy q = true
      · exact Or.inr ⟨q, rfl, hq⟩
      · have hq2 : strTruthy q = false := by revert hq; cases strTruthy q <;> simp
        left
        constructor <;> simp [ServerJs.searchHandler, hq2]
  · intro tv
    rcases tv with _ | t
    · exact Or.inl ⟨rfl, rfl⟩
    · by_cases ht : strTruthy t = true
      · exact Or.inr ⟨t, rfl, ht⟩
      · have ht2 : strTruthy t = false := by revert ht; cases strTruthy t <;> simp
        left
        constructor <;> simp [ServerJs.extractHandler, ht2]
  · intro tv
    rcases tv with _ | t
    · exact Or.inl ⟨rfl, rfl⟩
    · by_cases ht : strTruthy t = true
      · exact Or.inr ⟨t, rfl, ht⟩
      · have ht2 : strTruthy t = false := by revert ht; cases strTruthy t <;> simp
        left
        constructor <;> simp [ServerJs.insightHandler, ht2]
  · intro st qv
    rcases st with _ | s
    · rcases qv with _ | j
      · exact Or.inl ⟨rfl, rfl⟩
      · rcases j with _ | b | n | s2 | l | fs
        · exact Or.inl ⟨rfl, rfl⟩
        · exact Or.inl ⟨rfl, rfl⟩
        · exact Or.inl ⟨rfl, rfl⟩
        · exact Or.inl ⟨rfl, rfl⟩
        · rcases l with _ | ⟨j0, l⟩ <;> exact Or.inl ⟨rfl, rfl⟩
        · exact Or.inl ⟨rfl, rfl⟩
    · rcases qv with _ | j
      · exact Or.inl ⟨rfl, rfl⟩
      · rcases j with _ | b | n | s2 | l | fs
        · exact Or.inl ⟨rfl, rfl⟩
        · exact Or.inl ⟨rfl, rfl⟩
        · exact Or.inl ⟨rfl, rfl⟩
        · exact Or.inl ⟨rfl, rfl⟩
        · rcases l with _ | ⟨j0, l⟩
          · exact Or.inl ⟨rfl, rfl⟩
          · by_cases hs : strTruthy s = true
            · exact Or.inr ⟨s, j0, l, rfl, hs, rfl⟩
            · have hs2 : strTruthy s = false := by revert hs; cases strTruthy s <;> simp
              left
              constructor <;> simp [ServerJs.populateHandler, hs2]
        · exact Or.inl ⟨rfl, rfl⟩
  · intro mv
    rcases mv with _ | j
    · exact Or.inl ⟨rfl, rfl⟩
    · rcases j with _ | b | n | s2 | l | fs
      · exact Or.inl ⟨rfl, rfl⟩
      · exact Or.inl ⟨rfl, rfl⟩
      · exact Or.inl ⟨rfl, rfl⟩
      · exact Or.inl ⟨rfl, rfl⟩
      · rcases l with _ | ⟨m0, ms⟩
        · exact Or.inl ⟨rfl, rfl⟩
        · exact Or.inr ⟨m0, ms, rfl⟩
      · exact Or.inl ⟨rfl, rfl⟩

/-! ### Claim C7 (missing credential) -/

/-- Claim C7: when the credential is absent (or empty) in the
environment, a request that passed input validation receives status 500
with the configuration-error message on every one of the five routes,
no outbound call is made, and the process nevertheless listens. -/
theorem missing_key_500 (env : Env) (up : OutboundCall → UpstreamResult)
    (q te ti st : String) (q0 m0 : Json) (qs ms : List Json)
    (hk : ServerJs.checkApiKey env = none)
    (hq : strTruthy q = true) (hte : strTruthy te = true)
    (hti : strTruthy ti = true) (hst : strTruthy st = true) :
    ServerJs.searchHandler env up ⟨some q⟩ = ⟨⟨500, apiKeyMissingBody⟩, []⟩ ∧
    ServerJs.extractHandler env up ⟨some te⟩ = ⟨⟨500, apiKeyMissingBody⟩, []⟩ ∧
    ServerJs.insightHandler env up ⟨some ti⟩ = ⟨⟨500, apiKeyMissingBody⟩, []⟩ ∧
    ServerJs.populateHandler env up ⟨some st, some (Json.arr (q0 :: qs))⟩ =
      ⟨⟨500, apiKeyMissingBody⟩, []⟩ ∧
    ServerJs.chatHandler env up ⟨some (Json.arr (m0 :: ms))⟩ =
      ⟨⟨500, apiKeyMissingBody⟩, []⟩ ∧
    (ServerJs.startup env).listening = true := by
  refine ⟨?_, ?_, ?_, ?_, ?_, rfl⟩
  · simp [ServerJs.searchHandler, hk, hq]
  · simp [ServerJs.extractHandler, hk, hte]
  · simp [ServerJs.insightHandler, hk, hti]
  · simp [ServerJs.populateHandler, hk, hst]
  · simp [ServerJs.chatHandler, hk]

/-- Witness for the C7 theorem in an environment without the
credential. -/
theorem missing_key_500_witness :
    ServerJs.searchHandler ⟨none, 2026⟩ (fun _ => UpstreamResult.ok none) ⟨some "a"⟩ =
      ⟨⟨500, apiKeyMissingBody⟩, []⟩ ∧
    ServerJs.extractHandler ⟨none, 2026⟩ (fun _ => UpstreamResult.ok none) ⟨some "b"⟩ =
      ⟨⟨500, apiKeyMissingBody⟩, []⟩ ∧
    ServerJs.insightHandler ⟨none, 2026⟩ (fun _ => UpstreamResult.ok none) ⟨some "c"⟩ =
      ⟨⟨500, apiKeyMissingBody⟩, []⟩ ∧
    ServerJs.populateHandler ⟨none, 2026⟩ (fun _ => UpstreamResult.ok none)
      ⟨some "d", some (Json.arr [Json.str "Q"])⟩ = ⟨⟨500, apiKeyMissingBody⟩, []⟩ ∧
    ServerJs.chatHandler ⟨none, 2026⟩ (fun _ => UpstreamResult.ok none)
      ⟨some (Json.arr [Json.str "m"])⟩ = ⟨⟨500, apiKeyMissingBody⟩, []⟩ ∧
    (ServerJs.startup ⟨none, 2026⟩).listening = true :=
  missing_key_500 ⟨none, 2026⟩ (fun _ => UpstreamResult.ok none)
    "a" "b" "c" "d" (Json.str "Q") (Json.str "m") [] [] rfl rfl rfl rfl rfl

/-! ### Claim C8 (chat message list) -/

/-- Claim C8: for every non-empty caller-supplied message list, the
message list sent to the completion API is exactly the fixed system
instruction followed by the caller's messages in their original order,
whatever the upstream then replies. -/
theorem chat_system_first (env : Env) (up : OutboundCall → UpstreamResult)
    (key : String) (m0 : Json) (ms : List Json)
    (hk : ServerJs.checkApiKey env = some key) :
    (ServerJs.chatHandler env up ⟨some (Json.arr (m0 :: ms))⟩).calls =
      [⟨ServerJs.OPENROUTER_API_URL, key, ServerJs.MODEL_TO_USE,
        ServerJs.chatSystemMessage :: m0 :: ms, 500, false⟩] := by
  simp only [ServerJs.chatHandler, hk]
  cases up ⟨ServerJs.OPENROUTER_API_URL, key, ServerJs.MODEL_TO_USE,
      ServerJs.chatSystemMessage :: m0 :: ms, 500, false⟩ with
  | netError m => rfl
  | httpError st stTxt m => rfl
  | ok content =>
    rcases content with _ | c
    · rfl
    · show (if strTruthy c = true then (⟨⟨200, _⟩, _⟩ : RouteResult) else ⟨⟨500, _⟩, _⟩).calls = _
      cases strTruthy c <;> rfl

/-- Witness for the C8 theorem with a one-message history. -/
theorem chat_system_first_witness :
    (ServerJs.chatHandler ⟨some "sk", 2026⟩ (fun _ => UpstreamResult.ok (some "hello"))
        ⟨some (Json.arr [roleContent "user" "hi"])⟩).calls =
      [⟨ServerJs.OPENROUTER_API_URL, "sk", ServerJs.MODEL_TO_USE,
        ServerJs.chatSystemMessage :: roleContent "user" "hi" :: [], 500, false⟩] :=
  chat_system_first ⟨some "sk", 2026⟩ (fun _ => UpstreamResult.ok (some "hello"))
    "sk" (roleContent "user" "hi") [] rfl

/-! ### Claim C9 (only the ```json fence is stripped) -/

/-- Claim C9: for every upstream reply wrapped in a plain leading
```` ``` ```` fence (no `json` tag), the cleaning step removes the
trailing fence only, the leading fence stays in place, `JSON.parse`
fails on the cleaned string, and the routes take their parse-failure
branches: the search route still answers 200 with the single synthetic
placeholder, the form-population route answers 500 with the truncated
raw output. -/
theorem plain_fence_not_stripped (body : String) :
    (∃ zs, (cleanContent ("```\n" ++ body ++ "\n```")).data =
        backtick :: backtick :: backtick :: zs) ∧
    Json.parse (cleanContent ("```\n" ++ body ++ "\n```")) = none ∧
    (ServerJs.searchHandler ⟨some "sk", 2026⟩
        (fun _ => UpstreamResult.ok (some ("```\n" ++ body ++ "\n```"))) ⟨some "test"⟩).response =
      ⟨200, Json.obj [("results",
        Json.arr [ServerJs.searchParseFallback "test" ("```\n" ++ body ++ "\n```") 2026])]⟩ ∧
    (ServerJs.populateHandler ⟨some "sk", 2026⟩
        (fun _ => UpstreamResult.ok (some ("```\n" ++ body ++ "\n```")))
        ⟨some "text", some (Json.arr [Json.str "Q"])⟩).response =
      ⟨500, Json.obj [("error",
        Json.str (ServerJs.populateParseFailMsg ("```\n" ++ body ++ "\n```")))]⟩ := by
  have hdata : ("```\n" ++ body ++ "\n```").data =
      backtick :: backtick :: backtick :: '\n' ::
        (body.data ++ '\n' :: backtick :: backtick :: backtick :: []) := by
    rw [string_data_append, string_data_append]
    rw [show ("```\n").data = backtick :: backtick :: backtick :: '\n' :: [] from rfl]
    rw [show ("\n```").data = '\n' :: backtick :: backtick :: backtick :: [] from rfl]
    simp
  obtain ⟨zs, hz⟩ := cleanList_plain_fence body.data
  have hcleanstr : cleanContent ("```\n" ++ body ++ "\n```") =
      String.mk (backtick :: backtick :: backtick :: zs) := by
    show String.mk (cleanList ("```\n" ++ body ++ "\n```").data) = _
    rw [hdata, hz]
  have hparse : Json.parse (cleanContent ("```\n" ++ body ++ "\n```")) = none := by
    rw [hcleanstr]
    exact parse_head_backtick zs
  have hraw : strTruthy ("```\n" ++ body ++ "\n```") = true := by
    simp [strTruthy, hdata]
  have hk : ServerJs.checkApiKey ⟨some "sk", 2026⟩ = some "sk" := rfl
  have htest : strTruthy "test" = true := rfl
  have htext : strTruthy "text" = true := rfl
  refine ⟨⟨zs, by rw [hcleanstr]⟩, hparse, ?_, ?_⟩
  · simp [ServerJs.searchHandler, ServerJs.searchResults, hraw, hparse, hk, htest]
  · have hshape : ServerJs.populateShape [Json.str "Q"] ("```\n" ++ body ++ "\n```") =
        .error (ServerJs.populateParseFailMsg ("```\n" ++ body ++ "\n```")) := by
      simp [ServerJs.populateShape, hparse]
    simp [ServerJs.populateHandler, hraw, hshape, hk, htext]

/-! ### Claim C10 (the two files agree route for route) -/

/-- Claim C10: the handlers of the five POST routes and of `GET /` in
the two source files are the same functions — same status and body for
every request, environment and upstream behaviour — while the CORS
configurations differ (the updated file rejects an origin the default
configuration admits). -/
theorem files_equivalent :
    ServerJs.searchHandler = Part000.searchHandler ∧
    ServerJs.extractHandler = Part000.extractHandler ∧
    ServerJs.insightHandler = Part000.insightHandler ∧
    ServerJs.populateHandler = Part000.populateHandler ∧
    ServerJs.chatHandler = Part000.chatHandler ∧
    ServerJs.rootResponse = Part000.rootResponse ∧
    ServerJs.corsOriginAllowed (some "http://evil.example") = true ∧
    Part000.corsOriginAllowed (some "http://evil.example") = false :=
  ⟨rfl, rfl, rfl, rfl, rfl, rfl, rfl, by decide⟩
